import Mathlib

/-!
Shallow embedding of the execution-governance core of the `alive-body`
repository: the arbiter (`DefaultExecutionArbiter.evaluate`), the decision
union, `executeIfAllowed`, and the phase-32 execution gateway
(`phase-32/execute.ts`).  Machine numbers (JS epoch-millisecond timestamps)
are modelled as `Int`; JSON fields that may be absent are `Option`s;
throwing TypeScript code is modelled with `Except String`.
-/

namespace AliveBody

/-- Risk level union from `src/execution/policy.ts` (`RiskScore.level`). -/
inductive RiskLevel where
  | NONE
  | LOW
  | MEDIUM
  | HIGH
  | CRITICAL
deriving DecidableEq, Repr

/-- The string a `RiskLevel` interpolates to in TypeScript template strings. -/
def RiskLevel.toStr : RiskLevel → String
  | .NONE => "NONE"
  | .LOW => "LOW"
  | .MEDIUM => "MEDIUM"
  | .HIGH => "HIGH"
  | .CRITICAL => "CRITICAL"

/-- Numeric severity of a `RiskLevel`, used to state `level ≥ HIGH`. -/
def RiskLevel.toNat : RiskLevel → Nat
  | .NONE => 0
  | .LOW => 1
  | .MEDIUM => 2
  | .HIGH => 3
  | .CRITICAL => 4

/-- `RiskScore` from `src/execution/policy.ts`. -/
structure RiskScore where
  level : RiskLevel
  requiresSimulation : Bool
  requiresHumanConfirmation : Bool
deriving DecidableEq, Repr

/-- `PolicyEvaluationResult` from `src/execution/policy.ts`. -/
structure PolicyEvaluationResult where
  allowed : Bool
  reason : Option String := none
deriving DecidableEq, Repr

/-- `AuthorityCheckResult` from `src/execution/authority.ts`. -/
structure AuthorityCheckResult where
  granted : Bool
  reason : Option String := none
deriving DecidableEq, Repr

/-- `estimatedReversibility` union from the request module. -/
inductive Reversibility where
  | REVERSIBLE
  | IRREVERSIBLE
  | UNKNOWN
deriving DecidableEq, Repr

/-- `ActionDescriptor` from the request module; the `unknown`-typed
`parameters` payload is modelled as an optional string. -/
structure ActionDescriptor where
  actionType : String
  target : String
  parameters : Option String := none
  estimatedReversibility : Option Reversibility := none
deriving DecidableEq, Repr

/-- `Justification.source` union from the request module. -/
inductive JustificationSource where
  | CORE
  | HUMAN
  | SYSTEM
deriving DecidableEq, Repr

/-- `Justification` from the request module; `unknown`-typed `evidence`
is modelled as an optional string and `confidence` as an optional integer. -/
structure Justification where
  source : JustificationSource
  summary : String
  evidence : Option String := none
  confidence : Option Int := none
deriving DecidableEq, Repr

/-- `AuthorityClaim.claimedBy` union from the request module. -/
inductive ClaimHolder where
  | HUMAN
  | SYSTEM
  | AUTOMATED
deriving DecidableEq, Repr

/-- `AuthorityClaim` from the request module. -/
structure AuthorityClaim where
  claimedBy : ClaimHolder
  scope : List String
  expiresAt : Option Int := none
deriving DecidableEq, Repr

/-- `ExecutionContext.environment` union from the request module. -/
inductive Environment where
  | DEV
  | PROD
  | SANDBOX
deriving DecidableEq, Repr

/-- `ExecutionContext.riskTolerance` union from the request module. -/
inductive RiskTolerance where
  | LOW
  | MEDIUM
  | HIGH
deriving DecidableEq, Repr

/-- `ExecutionContext` from the request module. -/
structure ExecutionContext where
  environment : Environment
  riskTolerance : Option RiskTolerance := none
  dryRunPreferred : Option Bool := none
deriving DecidableEq, Repr

/-- `ExecutionRequest` from the request module. -/
structure ExecutionRequest where
  requestId : String
  action : ActionDescriptor
  justification : Justification
  authority : AuthorityClaim
  context : ExecutionContext
  requestedAt : Int
deriving DecidableEq, Repr

/-- `ExecutionConstraints` from the decision module. -/
structure ExecutionConstraints where
  maxDurationMs : Option Int := none
  maxRetries : Option Int := none
  allowedSideEffects : List String
deriving DecidableEq, Repr

/-- The closed tagged union `ExecutionDecision` from the decision module:
every variant carries the `BaseDecision` fields (`requestId`, `decidedAt`,
`decidedBy`, `rationale`) plus its own payload. -/
inductive ExecutionDecision where
  | deny (requestId : String) (decidedAt : Int) (decidedBy : String)
      (rationale : List String) (reasonCodes : List String)
  | defer (requestId : String) (decidedAt : Int) (decidedBy : String)
      (rationale : List String) (retryAfter : Option Int)
  | simulate (requestId : String) (decidedAt : Int) (decidedBy : String)
      (rationale : List String) (simulationScope : String)
  | requestConfirmation (requestId : String) (decidedAt : Int) (decidedBy : String)
      (rationale : List String) (confirmationRequiredFrom : String)
  | approve (requestId : String) (decidedAt : Int) (decidedBy : String)
      (rationale : List String) (executionConstraints : ExecutionConstraints)
deriving DecidableEq, Repr

/-- The `kind` discriminator values of `ExecutionDecision`. -/
inductive DecisionKind where
  | DENY
  | DEFER
  | SIMULATE
  | REQUEST_CONFIRMATION
  | APPROVE
deriving DecidableEq, Repr

/-- The `kind` field of a decision value. -/
def ExecutionDecision.kind : ExecutionDecision → DecisionKind
  | .deny .. => .DENY
  | .defer .. => .DEFER
  | .simulate .. => .SIMULATE
  | .requestConfirmation .. => .REQUEST_CONFIRMATION
  | .approve .. => .APPROVE

/-- `ExecutionPolicy` collaborator interface from `src/execution/policy.ts`. -/
structure ExecutionPolicy where
  evaluate : ExecutionRequest → PolicyEvaluationResult
  scoreRisk : ExecutionRequest → RiskScore

/-- `AuthorityModel` collaborator interface from `src/execution/authority.ts`. -/
structure AuthorityModel where
  check : ExecutionRequest → AuthorityCheckResult

/-- `ArbiterContext` from the context module. -/
structure ArbiterContext where
  policy : ExecutionPolicy
  authority : AuthorityModel
  now : Int

/-- The constant `decidedBy` discriminator of every arbiter decision. -/
def arbiterId : String := "EXECUTION_ARBITER"

def policyDenyFallback : String := "POLICY_DENY"

def authorityViolationFallback : String := "AUTHORITY_VIOLATION"

def simulationRequiredCode : String := "SIMULATION_REQUIRED"

def humanConfirmationCode : String := "HUMAN_CONFIRMATION_REQUIRED"

def policyOkCode : String := "POLICY_OK"

def authorityOkCode : String := "AUTHORITY_OK"

def riskCodeOf (level : RiskLevel) : String := "RISK_" ++ level.toStr

/-- The literal `"HUMAN"` value of `confirmationRequiredFrom`. -/
def confirmationFromHuman : String := "HUMAN"

/-- The constant `executionConstraints` value the arbiter puts on every
`APPROVE` decision: `{ allowedSideEffects: [] }` with no duration or
retry limit. -/
def noConstraints : ExecutionConstraints :=
  { maxDurationMs := none, maxRetries := none, allowedSideEffects := [] }

namespace DefaultExecutionArbiter

/-- `DefaultExecutionArbiter.evaluate`: policy, then authority, then risk,
in that order, producing one of the five decisions. -/
def evaluate (request : ExecutionRequest) (ctx : ArbiterContext) : ExecutionDecision :=
  let policyResult := ctx.policy.evaluate request
  if policyResult.allowed = false then
    .deny request.requestId ctx.now arbiterId
      [policyResult.reason.getD policyDenyFallback]
      [policyResult.reason.getD policyDenyFallback]
  else
    let authorityResult := ctx.authority.check request
    if authorityResult.granted = false then
      .deny request.requestId ctx.now arbiterId
        [authorityResult.reason.getD authorityViolationFallback]
        [authorityResult.reason.getD authorityViolationFallback]
    else
      let risk := ctx.policy.scoreRisk request
      if risk.requiresSimulation = true then
        .simulate request.requestId ctx.now arbiterId
          [simulationRequiredCode] risk.level.toStr
      else if risk.requiresHumanConfirmation = true then
        .requestConfirmation request.requestId ctx.now arbiterId
          [humanConfirmationCode] confirmationFromHuman
      else
        .approve request.requestId ctx.now arbiterId
          [policyOkCode, authorityOkCode, riskCodeOf risk.level]
          noConstraints

end DefaultExecutionArbiter

/-- `executeIfAllowed` from the execution gate module: returns `null`
(modelled as `none`) unless the decision kind is `APPROVE`, otherwise
invokes the adapter. -/
def executeIfAllowed {α : Type} (decision : ExecutionDecision)
    (adapter : Unit → α) : Option α :=
  if decision.kind ≠ DecisionKind.APPROVE then
    none
  else
    some (adapter ())

namespace Phase32

/-- The receipt `reason` codes returned by `classifyBlockReason` in
`src/phase-32/execute.ts`. -/
inductive BlockReason where
  | kill_switch
  | expired_authority
  | invalid_authority
  | invalid_action
deriving DecidableEq, Repr

/-- ASCII lower-casing of one character, as the `i` regex flag applies
to the literal patterns of `classifyBlockReason`. -/
def charToLower (c : Char) : Char :=
  if 65 ≤ c.toNat ∧ c.toNat ≤ 90 then Char.ofNat (c.toNat + 32) else c

/-- `pat` is a leading segment of `s` (character lists). -/
def startsWithChars : List Char → List Char → Bool
  | _, [] => true
  | [], _ :: _ => false
  | c :: cs, p :: ps => (c == p) && startsWithChars cs ps

/-- `pat` occurs somewhere inside `s` (character lists). -/
def occursChars : List Char → List Char → Bool
  | [], pat => pat.isEmpty
  | c :: rest, pat => startsWithChars (c :: rest) pat || occursChars rest pat

/-- Case-insensitive substring test, modelling the `/pat/i.test(msg)`
regex tests of `classifyBlockReason` (each pattern is a literal string). -/
def containsCI (s pat : String) : Bool :=
  occursChars (s.data.map charToLower) (pat.data.map charToLower)

def killSwitchMsg : String := "Kill switch engaged. Execution blocked."

def authorityNotValidatedMsg : String := "Authority not validated."

def authorizationExpiredMsg : String := "Authorization expired."

def actionNotRegisteredMsg : String := "Action not registered."

def patKillSwitch : String := "kill switch"

def patExpired : String := "expired"

def patAuthority : String := "authority"

/-- `classifyBlockReason` from `src/phase-32/execute.ts`: maps the thrown
error message to a receipt reason by ordered regex tests. -/
def classifyBlockReason (msg : String) : BlockReason :=
  if containsCI msg patKillSwitch then .kill_switch
  else if containsCI msg patExpired then .expired_authority
  else if containsCI msg patAuthority then .invalid_authority
  else .invalid_action

/-- The fields of `phase-32/execution-authorization.json` that
`execute.ts` reads: `authority.validated`, `authority.source`,
`authorization.action`, `authorization.parameters`,
`authorization.expires_at`.  An absent or unparsable `expires_at` is
`none`: in JavaScript `new Date(undefined)` is an Invalid Date whose
numeric value is NaN. -/
structure AuthorizationDoc where
  authorityValidated : Bool
  authoritySource : String
  action : String
  parameters : Option String := none
  expiresAt : Option Int := none

/-- The expiry comparison of `assertAuthorization`:
`new Date(auth.authorization.expires_at) < new Date()`.  When
`expires_at` is absent the left side is NaN and every comparison with
NaN is false, so the check passes. -/
def authorizationExpired (auth : AuthorizationDoc) (now : Int) : Bool :=
  match auth.expiresAt with
  | some t => decide (t < now)
  | none => false

/-- `result` field of a phase-32 receipt. -/
inductive ReceiptResult where
  | success
  | blocked
deriving DecidableEq, Repr

/-- A line of `phase-32/execution-receipts.jsonl` as written by
`writeReceipt` in `execute.ts`. -/
structure Receipt where
  execution_id : String
  action : String
  authority : String
  timestamp : String
  result : ReceiptResult
  reason : Option BlockReason := none
deriving DecidableEq, Repr

/-- The string value of `new Date(0).toISOString()`, the timestamp both
receipt paths of `execute.ts` write. -/
def dateZeroISO : String := "1970-01-01T00:00:00.000Z"

/-- `writeReceipt`: appends one entry to the receipts ledger. -/
def writeReceipt (ledger : List Receipt) (entry : Receipt) : List Receipt :=
  ledger ++ [entry]

/-- The inputs of one `execute.ts` run: the kill-switch file, the
authorization file, the action registry (a handler either returns
normally or throws with a message), and the current time. -/
structure GatewayEnv where
  killEnabled : Bool
  auth : AuthorizationDoc
  registry : String → Option (Option String → Except String Unit)
  now : Int

/-- What one `execute.ts` run produced: the final ledger, whether the
registered action handler was invoked, and the rethrown error if any. -/
structure GatewayOutcome where
  ledger : List Receipt
  adapterInvoked : Bool
  thrown : Option String

/-- The receipt entry `execute.ts` builds: `actionName` and
`authoritySource` are captured from the authorization file before any
check runs. -/
def receiptOf (env : GatewayEnv) (executionId : String)
    (result : ReceiptResult) (reason : Option BlockReason) : Receipt :=
  { execution_id := executionId
    action := env.auth.action
    authority := env.auth.authoritySource
    timestamp := dateZeroISO
    result := result
    reason := reason }

/-- The catch branch of `execute.ts`: write a blocked receipt with the
classified reason, then rethrow. -/
def blockedOutcome (env : GatewayEnv) (executionId : String)
    (ledger : List Receipt) (msg : String) (invoked : Bool) : GatewayOutcome :=
  { ledger := writeReceipt ledger
      (receiptOf env executionId .blocked (some (classifyBlockReason msg)))
    adapterInvoked := invoked
    thrown := some msg }

/-- One run of the `execute.ts` main try/catch: `assertKillSwitch`, then
`assertAuthorization` (validated flag, then expiry), then the registry
lookup, then the adapter call, and a receipt on every path. -/
def runGateway (env : GatewayEnv) (executionId : String)
    (ledger : List Receipt) : GatewayOutcome :=
  if env.killEnabled = false then
    blockedOutcome env executionId ledger killSwitchMsg false
  else if env.auth.authorityValidated = false then
    blockedOutcome env executionId ledger authorityNotValidatedMsg false
  else if authorizationExpired env.auth env.now = true then
    blockedOutcome env executionId ledger authorizationExpiredMsg false
  else
    match env.registry env.auth.action with
    | none => blockedOutcome env executionId ledger actionNotRegisteredMsg false
    | some handler =>
      match handler env.auth.parameters with
      | .error msg => blockedOutcome env executionId ledger msg true
      | .ok _ =>
        { ledger := writeReceipt ledger (receiptOf env executionId .success none)
          adapterInvoked := true
          thrown := none }

end Phase32

/-- Modelled from the spec: no concrete `scoreRisk` implementation exists
under `src/` (only the `ExecutionPolicy` interface declares it); §4.2 of
the specification requires of any Risk Assessor that `requiresSimulation`
is forced true whenever `estimatedReversibility == IRREVERSIBLE` or the
scored level is at least HIGH. -/
def RiskAssessorContract (scoreRisk : ExecutionRequest → RiskScore) : Prop :=
  ∀ r : ExecutionRequest,
    (r.action.estimatedReversibility = some Reversibility.IRREVERSIBLE ∨
      RiskLevel.HIGH.toNat ≤ (scoreRisk r).level.toNat) →
    (scoreRisk r).requiresSimulation = true

/-! Concrete sample data used by witnesses and counterexamples. -/

def sampleReasonSafety : String := "SAFETY_CHECK_FAILED"

def sampleAction : ActionDescriptor :=
  { actionType := "notify", target := "dev-channel", parameters := none,
    estimatedReversibility := some .REVERSIBLE }

def irreversibleAction : ActionDescriptor :=
  { actionType := "wipe", target := "disk0", parameters := none,
    estimatedReversibility := some .IRREVERSIBLE }

def sampleJustification : Justification :=
  { source := .CORE, summary := "routine notification", evidence := none,
    confidence := none }

def sampleClaim : AuthorityClaim :=
  { claimedBy := .HUMAN, scope := ["notify"], expiresAt := some 100 }

def wideClaim : AuthorityClaim :=
  { claimedBy := .SYSTEM, scope := ["notify", "wipe"], expiresAt := none }

def sampleContext : ExecutionContext :=
  { environment := .DEV, riskTolerance := none, dryRunPreferred := none }

def sampleReq : ExecutionRequest :=
  { requestId := "req-1", action := sampleAction,
    justification := sampleJustification, authority := sampleClaim,
    context := sampleContext, requestedAt := 0 }

def irreversibleReq : ExecutionRequest :=
  { requestId := "req-2", action := irreversibleAction,
    justification := sampleJustification, authority := sampleClaim,
    context := sampleContext, requestedAt := 0 }

def wideGrantReq : ExecutionRequest :=
  { requestId := "req-3", action := sampleAction,
    justification := sampleJustification, authority := wideClaim,
    context := sampleContext, requestedAt := 0 }

/-- A policy collaborator that allows everything and scores LOW risk with
no simulation and no confirmation requirement. -/
def lenientPolicy : ExecutionPolicy :=
  { evaluate := fun _ => { allowed := true, reason := none }
    scoreRisk := fun _ =>
      { level := .LOW, requiresSimulation := false,
        requiresHumanConfirmation := false } }

/-- A policy collaborator that denies everything with a named reason. -/
def denyingPolicy : ExecutionPolicy :=
  { evaluate := fun _ => { allowed := false, reason := some sampleReasonSafety }
    scoreRisk := fun _ =>
      { level := .LOW, requiresSimulation := false,
        requiresHumanConfirmation := false } }

/-- A policy collaborator that allows everything but always demands both
simulation and human confirmation at HIGH level. -/
def cautiousPolicy : ExecutionPolicy :=
  { evaluate := fun _ => { allowed := true, reason := none }
    scoreRisk := fun _ =>
      { level := .HIGH, requiresSimulation := true,
        requiresHumanConfirmation := true } }

def grantingAuthority : AuthorityModel :=
  { check := fun _ => { granted := true, reason := none } }

def refusingAuthority : AuthorityModel :=
  { check := fun _ => { granted := false, reason := none } }

def lenientCtx : ArbiterContext :=
  { policy := lenientPolicy, authority := grantingAuthority, now := 0 }

def cautiousCtx : ArbiterContext :=
  { policy := cautiousPolicy, authority := grantingAuthority, now := 0 }

def denySample : ExecutionDecision :=
  .deny "req-1" 0 arbiterId [sampleReasonSafety] [sampleReasonSafety]

def approveSample : ExecutionDecision :=
  .approve "req-1" 0 arbiterId [policyOkCode, authorityOkCode] noConstraints

def adapterSample : Unit → Nat := fun _ => 7

namespace Phase32

def sampleEid : String := "exec-0001"

def operatorSource : String := "human-operator"

def notifyName : String := "notify"

/-- An authorization document that passes every gateway check at `now = 50`. -/
def okAuthDoc : AuthorizationDoc :=
  { authorityValidated := true, authoritySource := operatorSource,
    action := notifyName, parameters := none, expiresAt := some 100 }

/-- An authorization document whose expiry lies in the past at `now = 50`. -/
def expiredAuthDoc : AuthorizationDoc :=
  { authorityValidated := true, authoritySource := operatorSource,
    action := notifyName, parameters := none, expiresAt := some 10 }

/-- An authorization document with no `expires_at` field at all. -/
def noExpiryAuthDoc : AuthorizationDoc :=
  { authorityValidated := true, authoritySource := operatorSource,
    action := notifyName, parameters := none, expiresAt := none }

/-- A registry carrying exactly one registered action whose handler
returns normally. -/
def okRegistry : String → Option (Option String → Except String Unit) :=
  fun a => if a = notifyName then some (fun _ => Except.ok ()) else none

def okEnv : GatewayEnv :=
  { killEnabled := true, auth := okAuthDoc, registry := okRegistry, now := 50 }

def expiredEnv : GatewayEnv :=
  { killEnabled := true, auth := expiredAuthDoc, registry := okRegistry, now := 50 }

def killOffExpiredEnv : GatewayEnv :=
  { killEnabled := false, auth := expiredAuthDoc, registry := okRegistry, now := 50 }

def killOffEnv : GatewayEnv :=
  { killEnabled := false, auth := okAuthDoc, registry := okRegistry, now := 50 }

def noExpiryEnv : GatewayEnv :=
  { killEnabled := true, auth := noExpiryAuthDoc, registry := okRegistry, now := 50 }

end Phase32

/-- C1: `executeIfAllowed` returns null for every decision whose kind is
not APPROVE — and then the adapter's value plays no role — while for an
APPROVE decision it returns exactly the adapter's result, so the adapter
is invoked only on APPROVE. -/
theorem executeIfAllowed_adapter_only_on_approve {α : Type}
    (d : ExecutionDecision) (f : Unit → α) :
    (d.kind ≠ DecisionKind.APPROVE → executeIfAllowed d f = none) ∧
    (d.kind = DecisionKind.APPROVE → executeIfAllowed d f = some (f ())) := by
  constructor
  · intro h
    simp [executeIfAllowed, h]
  · intro h
    simp [executeIfAllowed, h]

/-- Witness for C1 at a concrete DENY decision and a concrete APPROVE
decision with a concrete adapter. -/
theorem executeIfAllowed_adapter_only_on_approve_witness :
    executeIfAllowed denySample adapterSample = none ∧
    executeIfAllowed approveSample adapterSample = some (adapterSample ()) :=
  ⟨(executeIfAllowed_adapter_only_on_approve denySample adapterSample).1 (by decide),
   (executeIfAllowed_adapter_only_on_approve approveSample adapterSample).2 (by decide)⟩

/-- C4: when the policy collaborator denies a request with a reason, the
arbiter returns DENY with reasonCodes equal to that single reason, and
the decision is identical for any two authority models and any two risk
scorers — neither is consulted. -/
theorem policy_deny_short_circuits (req : ExecutionRequest)
    (pe : ExecutionRequest → PolicyEvaluationResult)
    (rs₁ rs₂ : ExecutionRequest → RiskScore)
    (am₁ am₂ : AuthorityModel) (t : Int) (r : String)
    (h : (pe req).allowed = false) (hr : (pe req).reason = some r) :
    DefaultExecutionArbiter.evaluate req
        { policy := { evaluate := pe, scoreRisk := rs₁ }, authority := am₁, now := t } =
      ExecutionDecision.deny req.requestId t arbiterId [r] [r] ∧
    DefaultExecutionArbiter.evaluate req
        { policy := { evaluate := pe, scoreRisk := rs₁ }, authority := am₁, now := t } =
      DefaultExecutionArbiter.evaluate req
        { policy := { evaluate := pe, scoreRisk := rs₂ }, authority := am₂, now := t } := by
  constructor
  · simp [DefaultExecutionArbiter.evaluate, h, hr]
  · simp [DefaultExecutionArbiter.evaluate, h]

/-- Witness for C4 at a concrete denying policy, with two distinct risk
scorers and two distinct authority models. -/
theorem policy_deny_short_circuits_witness :
    DefaultExecutionArbiter.evaluate sampleReq
        { policy := { evaluate := denyingPolicy.evaluate, scoreRisk := lenientPolicy.scoreRisk },
          authority := grantingAuthority, now := 0 } =
      ExecutionDecision.deny sampleReq.requestId 0 arbiterId
        [sampleReasonSafety] [sampleReasonSafety] :=
  (policy_deny_short_circuits sampleReq denyingPolicy.evaluate
    lenientPolicy.scoreRisk cautiousPolicy.scoreRisk
    grantingAuthority refusingAuthority 0 sampleReasonSafety
    (by decide) (by decide)).1

/-- C5: when policy allows, authority grants, and the risk score requires
simulation, the arbiter returns SIMULATE with `simulationScope` equal to
the risk level — whatever `requiresHumanConfirmation` says, so SIMULATE
takes priority over REQUEST_CONFIRMATION. -/
theorem simulate_priority_over_confirmation (req : ExecutionRequest)
    (ctx : ArbiterContext)
    (hp : (ctx.policy.evaluate req).allowed = true)
    (ha : (ctx.authority.check req).granted = true)
    (hs : (ctx.policy.scoreRisk req).requiresSimulation = true) :
    DefaultExecutionArbiter.evaluate req ctx =
      ExecutionDecision.simulate req.requestId ctx.now arbiterId
        [simulationRequiredCode] (ctx.policy.scoreRisk req).level.toStr := by
  simp [DefaultExecutionArbiter.evaluate, hp, ha, hs]

/-- Witness for C5 at a context whose scorer demands both simulation and
human confirmation: the decision is still SIMULATE. -/
theorem simulate_priority_over_confirmation_witness :
    DefaultExecutionArbiter.evaluate sampleReq cautiousCtx =
      ExecutionDecision.simulate sampleReq.requestId cautiousCtx.now arbiterId
        [simulationRequiredCode] (cautiousCtx.policy.scoreRisk sampleReq).level.toStr ∧
    (cautiousCtx.policy.scoreRisk sampleReq).requiresHumanConfirmation = true :=
  ⟨simulate_priority_over_confirmation sampleReq cautiousCtx
    (by decide) (by decide) (by decide), by decide⟩

/-- C6: against any risk scorer satisfying the spec-modelled Risk
Assessor contract, a request whose action is IRREVERSIBLE is never
APPROVEd, and whenever policy allows and authority grants the decision
is SIMULATE. -/
theorem irreversible_never_approved (req : ExecutionRequest)
    (ctx : ArbiterContext)
    (hc : RiskAssessorContract ctx.policy.scoreRisk)
    (hirr : req.action.estimatedReversibility = some Reversibility.IRREVERSIBLE) :
    (DefaultExecutionArbiter.evaluate req ctx).kind ≠ DecisionKind.APPROVE ∧
    ((ctx.policy.evaluate req).allowed = true →
      (ctx.authority.check req).granted = true →
      (DefaultExecutionArbiter.evaluate req ctx).kind = DecisionKind.SIMULATE) := by
  have hs : (ctx.policy.scoreRisk req).requiresSimulation = true :=
    hc req (Or.inl hirr)
  cases hA : (ctx.policy.evaluate req).allowed with
  | false =>
    constructor
    · simp [DefaultExecutionArbiter.evaluate, hA, ExecutionDecision.kind]
    · intro h1 _
      simp at h1
  | true =>
    cases hG : (ctx.authority.check req).granted with
    | false =>
      constructor
      · simp [DefaultExecutionArbiter.evaluate, hA, hG, ExecutionDecision.kind]
      · intro _ h2
        simp at h2
    | true =>
      constructor
      · simp [DefaultExecutionArbiter.evaluate, hA, hG, hs, ExecutionDecision.kind]
      · intro _ _
        simp [DefaultExecutionArbiter.evaluate, hA, hG, hs, ExecutionDecision.kind]

/-- Witness for C6: a concrete IRREVERSIBLE request against a concrete
scorer satisfying the contract is not APPROVEd. -/
theorem irreversible_never_approved_witness :
    (DefaultExecutionArbiter.evaluate irreversibleReq cautiousCtx).kind ≠
      DecisionKind.APPROVE :=
  (irreversible_never_approved irreversibleReq cautiousCtx
    (fun _ _ => rfl) (by decide)).1

/-- C9 counterexample: the APPROVE decision's `executionConstraints` are
not populated from the grant's declared limits — two requests whose
claimed grants differ (narrow scope with expiry versus wide scope
without) receive the identical constant constraints value, which carries
no `maxDurationMs`, no `maxRetries` and an empty side-effect list. -/
theorem approve_constraints_not_from_grant :
    DefaultExecutionArbiter.evaluate sampleReq lenientCtx =
      ExecutionDecision.approve sampleReq.requestId 0 arbiterId
        [policyOkCode, authorityOkCode, riskCodeOf RiskLevel.LOW] noConstraints ∧
    DefaultExecutionArbiter.evaluate wideGrantReq lenientCtx =
      ExecutionDecision.approve wideGrantReq.requestId 0 arbiterId
        [policyOkCode, authorityOkCode, riskCodeOf RiskLevel.LOW] noConstraints ∧
    sampleReq.authority ≠ wideGrantReq.authority ∧
    noConstraints.maxDurationMs = none ∧
    noConstraints.maxRetries = none ∧
    noConstraints.allowedSideEffects = [] := by
  refine ⟨by decide, by decide, by decide, rfl, rfl, rfl⟩

/-- C9 as amended: when policy allows, authority grants, and the risk
score requires neither simulation nor confirmation, the arbiter returns
APPROVE with rationale exactly POLICY_OK, AUTHORITY_OK, RISK_<level>,
and with the constant `executionConstraints` value
`allowedSideEffects = []` and no duration or retry limit, independent of
any grant. -/
theorem approve_rationale_and_constant_constraints (req : ExecutionRequest)
    (ctx : ArbiterContext)
    (hp : (ctx.policy.evaluate req).allowed = true)
    (ha : (ctx.authority.check req).granted = true)
    (hs : (ctx.policy.scoreRisk req).requiresSimulation = false)
    (hh : (ctx.policy.scoreRisk req).requiresHumanConfirmation = false) :
    DefaultExecutionArbiter.evaluate req ctx =
      ExecutionDecision.approve req.requestId ctx.now arbiterId
        [policyOkCode, authorityOkCode, riskCodeOf (ctx.policy.scoreRisk req).level]
        noConstraints := by
  simp [DefaultExecutionArbiter.evaluate, hp, ha, hs, hh]

/-- Witness for the amended C9 at a concrete allowing context. -/
theorem approve_rationale_and_constant_constraints_witness :
    DefaultExecutionArbiter.evaluate sampleReq lenientCtx =
      ExecutionDecision.approve sampleReq.requestId lenientCtx.now arbiterId
        [policyOkCode, authorityOkCode,
          riskCodeOf (lenientCtx.policy.scoreRisk sampleReq).level]
        noConstraints :=
  approve_rationale_and_constant_constraints sampleReq lenientCtx
    (by decide) (by decide) (by decide) (by decide)

namespace Phase32

/-- Shape of every blocked branch of the gateway: one blocked receipt
appended, carrying the classified reason of the thrown message. -/
theorem blockedOutcome_shape (env : GatewayEnv) (eid : String)
    (ledger : List Receipt) (msg : String) (invoked : Bool) :
    (blockedOutcome env eid ledger msg invoked).ledger.length = ledger.length + 1 ∧
    ∃ r, (blockedOutcome env eid ledger msg invoked).ledger = ledger ++ [r] ∧
      ((blockedOutcome env eid ledger msg invoked).thrown = none →
        r.result = ReceiptResult.success ∧ r.reason = none) ∧
      (∀ m, (blockedOutcome env eid ledger msg invoked).thrown = some m →
        r.result = ReceiptResult.blocked ∧
        r.reason = some (classifyBlockReason m)) := by
  refine ⟨by simp [blockedOutcome, writeReceipt],
    receiptOf env eid ReceiptResult.blocked (some (classifyBlockReason msg)),
    rfl, ?_, ?_⟩
  · intro h
    simp [blockedOutcome] at h
  · intro m hm
    simp [blockedOutcome] at hm
    subst hm
    exact ⟨rfl, rfl⟩

/-- C2: every gateway run appends exactly one receipt to the ledger —
with result success and no reason when nothing was thrown, and with
result blocked and the classified reason when anything was thrown. -/
theorem gateway_exactly_one_receipt (env : GatewayEnv) (eid : String)
    (ledger : List Receipt) :
    (runGateway env eid ledger).ledger.length = ledger.length + 1 ∧
    ∃ r, (runGateway env eid ledger).ledger = ledger ++ [r] ∧
      ((runGateway env eid ledger).thrown = none →
        r.result = ReceiptResult.success ∧ r.reason = none) ∧
      (∀ m, (runGateway env eid ledger).thrown = some m →
        r.result = ReceiptResult.blocked ∧
        r.reason = some (classifyBlockReason m)) := by
  unfold runGateway
  split
  · exact blockedOutcome_shape env eid ledger killSwitchMsg false
  · split
    · exact blockedOutcome_shape env eid ledger authorityNotValidatedMsg false
    · split
      · exact blockedOutcome_shape env eid ledger authorizationExpiredMsg false
      · split
        · exact blockedOutcome_shape env eid ledger actionNotRegisteredMsg false
        · split
          · exact blockedOutcome_shape env eid ledger _ true
          · refine ⟨by simp [writeReceipt],
              receiptOf env eid ReceiptResult.success none, rfl,
              fun _ => ⟨rfl, rfl⟩, ?_⟩
            intro m hm
            simp at hm

/-- Witness for C2 at a concrete environment that reaches the adapter. -/
theorem gateway_exactly_one_receipt_witness :
    (runGateway okEnv sampleEid []).ledger.length =
      List.length ([] : List Receipt) + 1 :=
  (gateway_exactly_one_receipt okEnv sampleEid []).1

/-- C3: with the kill-switch flag false the gateway writes one blocked
receipt with reason kill_switch, never invokes the adapter, and the
outcome is independent of the registry, the authority-validated flag,
the expiry and the clock — the kill-switch check runs first. -/
theorem gateway_kill_switch_blocks_first (env : GatewayEnv) (eid : String)
    (ledger : List Receipt) (h : env.killEnabled = false) :
    (runGateway env eid ledger).ledger =
      ledger ++ [receiptOf env eid ReceiptResult.blocked
        (some BlockReason.kill_switch)] ∧
    (runGateway env eid ledger).adapterInvoked = false ∧
    ∀ (reg : String → Option (Option String → Except String Unit))
      (v : Bool) (e : Option Int) (n : Int),
      runGateway
        { killEnabled := env.killEnabled, registry := reg, now := n,
          auth := { authorityValidated := v,
                    authoritySource := env.auth.authoritySource,
                    action := env.auth.action,
                    parameters := env.auth.parameters,
                    expiresAt := e } } eid ledger =
        runGateway env eid ledger := by
  have hcls : classifyBlockReason killSwitchMsg = BlockReason.kill_switch := by
    decide
  refine ⟨?_, ?_, ?_⟩
  · simp [runGateway, h, blockedOutcome, writeReceipt, hcls]
  · simp [runGateway, h, blockedOutcome]
  · intro reg v e n
    simp [runGateway, h, blockedOutcome, receiptOf]

/-- Witness for C3 at a concrete environment with the kill switch off. -/
theorem gateway_kill_switch_blocks_first_witness :
    (runGateway killOffEnv sampleEid []).ledger =
      [] ++ [receiptOf killOffEnv sampleEid ReceiptResult.blocked
        (some BlockReason.kill_switch)] :=
  (gateway_kill_switch_blocks_first killOffEnv sampleEid [] rfl).1

/-- C7 counterexample: a run whose authorization is already expired but
whose kill switch is off is blocked with reason kill_switch, not
expired_authority — the claim's unconditional `reason = expired_authority`
fails. -/
theorem expired_with_kill_off_reason_mismatch :
    killOffExpiredEnv.auth.expiresAt = some 10 ∧
    (10 : Int) < killOffExpiredEnv.now ∧
    (runGateway killOffExpiredEnv sampleEid []).ledger =
      [receiptOf killOffExpiredEnv sampleEid ReceiptResult.blocked
        (some BlockReason.kill_switch)] ∧
    BlockReason.kill_switch ≠ BlockReason.expired_authority := by
  decide

/-- C7 as amended: when the kill switch is enabled and the authority is
validated, an authorization whose `expires_at` lies strictly before the
gateway-invocation time is blocked with reason expired_authority and the
adapter is not invoked. -/
theorem expired_authority_blocked (env : GatewayEnv) (eid : String)
    (ledger : List Receipt) (t : Int)
    (hk : env.killEnabled = true)
    (hv : env.auth.authorityValidated = true)
    (he : env.auth.expiresAt = some t) (hlt : t < env.now) :
    (runGateway env eid ledger).ledger =
      ledger ++ [receiptOf env eid ReceiptResult.blocked
        (some BlockReason.expired_authority)] ∧
    (runGateway env eid ledger).adapterInvoked = false := by
  have hexp : authorizationExpired env.auth env.now = true := by
    simp [authorizationExpired, he, hlt]
  have hcls : classifyBlockReason authorizationExpiredMsg =
      BlockReason.expired_authority := by decide
  constructor
  · simp [runGateway, hk, hv, hexp, blockedOutcome, writeReceipt, hcls]
  · simp [runGateway, hk, hv, hexp, blockedOutcome]

/-- Witness for the amended C7 at a concrete expired environment. -/
theorem expired_authority_blocked_witness :
    (runGateway expiredEnv sampleEid []).ledger =
      [] ++ [receiptOf expiredEnv sampleEid ReceiptResult.blocked
        (some BlockReason.expired_authority)] ∧
    (runGateway expiredEnv sampleEid []).adapterInvoked = false :=
  expired_authority_blocked expiredEnv sampleEid [] 10 rfl rfl rfl (by decide)

/-- C8, behavior at the failing input: an authorization with no
`expires_at` at all sails through `assertAuthorization` — in JavaScript
`new Date(undefined)` is NaN and `NaN < now` is false — so the adapter
runs and a success receipt is written, instead of the fail-closed block
the specification requires. -/
theorem absent_expiry_executes :
    noExpiryEnv.auth.expiresAt = none ∧
    noExpiryEnv.killEnabled = true ∧
    noExpiryEnv.auth.authorityValidated = true ∧
    (runGateway noExpiryEnv sampleEid []).adapterInvoked = true ∧
    (runGateway noExpiryEnv sampleEid []).thrown = none ∧
    (runGateway noExpiryEnv sampleEid []).ledger =
      [receiptOf noExpiryEnv sampleEid ReceiptResult.success none] := by
  decide

/-- C10: every receipt any gateway run writes — success or blocked —
carries the constant Unix-epoch timestamp string of
`new Date(0).toISOString()`. -/
theorem receipt_timestamp_is_epoch (env : GatewayEnv) (eid : String)
    (ledger : List Receipt) :
    ∃ r, (runGateway env eid ledger).ledger = ledger ++ [r] ∧
      r.timestamp = dateZeroISO := by
  unfold runGateway
  split
  · exact ⟨_, rfl, rfl⟩
  · split
    · exact ⟨_, rfl, rfl⟩
    · split
      · exact ⟨_, rfl, rfl⟩
      · split
        · exact ⟨_, rfl, rfl⟩
        · split
          · exact ⟨_, rfl, rfl⟩
          · exact ⟨_, rfl, rfl⟩

end Phase32

end AliveBody
